import Mathlib

/-!
Shallow embedding of the booking/contact Streamlit application (`app.py`):
the record store (CSV-backed tables of bookings and contacts), the form
submission handlers with their validation, the webhook dispatcher
`send_to_make`, the payload builder `build_booking_payload`, the Kanban
status-change handler, and the CSV export/import page.

Tables are modelled as Lean lists of records; the CSV layer (pandas
`to_csv` / `read_csv`) is modelled by an explicit RFC-4180-style
writer/parser over `List Char`.  Machine-generated inputs that the code
reads from the environment (uuid4 ids, `datetime.now()`, the local UTC
offset used by `datetime.timestamp()`, and the HTTP response of
`requests.post`) are passed in as explicit parameters.
-/

/-- The four Kanban statuses, `KANBAN_STATI` in `app.py`
("Ny", "Pågående", "Klar", "Arkiv" = New, InProgress, Done, Archived). -/
def KANBAN_STATI : List String := ["Ny", "Pågående", "Klar", "Arkiv"]

/-- A stored booking row: the nine columns of `data/bookings.csv`
(`id, skapad, kund, uppdrag, datum, tid, plats, ersattning, status`). -/
structure Booking where
  id : String
  skapad : String
  kund : String
  uppdrag : String
  datum : String
  tid : String
  plats : String
  ersattning : String
  status : String
deriving DecidableEq, Repr

/-- A stored contact row: the eight columns of `data/contacts.csv`
(`id, skapad, namn, telefon, foretag, mail, kommentar, status`). -/
structure Contact where
  id : String
  skapad : String
  namn : String
  telefon : String
  foretag : String
  mail : String
  kommentar : String
  status : String
deriving DecidableEq, Repr

/-! ## The pandas storage cycle

Every handler runs a `pd.read_csv(..., dtype=str)` → mutate →
`df.to_csv(...)` cycle over the backing file.  Even under `dtype=str`,
`read_csv` converts its default NA strings to NaN, and `to_csv` writes NaN
back as an empty cell.  So one load/save cycle normalizes every stored
cell: a default NA string (including the empty cell) becomes an empty
cell, everything else is kept verbatim, and the loaders additionally fill
a NaN `status` with "Ny".  DataFrames built directly from Python dicts
(the freshly submitted row) keep their strings verbatim. -/

/-- The default NA strings of `pd.read_csv` (`STR_NA_VALUES`). -/
def NA_STRINGS : List String :=
  ["", "#N/A", "#N/A N/A", "#NA", "-1.#IND", "-1.#QNAN", "-NaN", "-nan",
   "1.#IND", "1.#QNAN", "<NA>", "N/A", "NA", "NULL", "NaN", "None", "n/a",
   "nan", "null"]

/-- Reading one stored cell: `read_csv(dtype=str)` yields NaN (here
`none`) for a default NA string and the verbatim text otherwise. -/
def naCoerce (s : String) : Option String :=
  if s ∈ NA_STRINGS then none else some s

/-- One load/save normalization of a cell: what `to_csv` writes for the
value `read_csv` produced (NaN is written as an empty cell). -/
def normalizeCell (s : String) : String := (naCoerce s).getD ""

/-- A booking row of the in-memory DataFrame after `load_bookings`:
cells are NaN (`none`) or text, and `status` has been `fillna`-ed. -/
structure LoadedBooking where
  id : Option String
  skapad : Option String
  kund : Option String
  uppdrag : Option String
  datum : Option String
  tid : Option String
  plats : Option String
  ersattning : Option String
  status : String
deriving DecidableEq, Repr

/-- Reading one stored booking row (`read_csv` NA handling plus the
`fillna("Ny")` on `status` that `load_bookings` performs). -/
def load_booking_row (b : Booking) : LoadedBooking :=
  { id := naCoerce b.id, skapad := naCoerce b.skapad, kund := naCoerce b.kund,
    uppdrag := naCoerce b.uppdrag, datum := naCoerce b.datum,
    tid := naCoerce b.tid, plats := naCoerce b.plats,
    ersattning := naCoerce b.ersattning,
    status := (naCoerce b.status).getD "Ny" }

/-- Writing one loaded booking row back (`to_csv` writes NaN as empty). -/
def save_booking_row (l : LoadedBooking) : Booking :=
  { id := l.id.getD "", skapad := l.skapad.getD "", kund := l.kund.getD "",
    uppdrag := l.uppdrag.getD "", datum := l.datum.getD "",
    tid := l.tid.getD "", plats := l.plats.getD "",
    ersattning := l.ersattning.getD "", status := l.status }

/-- `load_bookings()` over the stored table. -/
def load_bookings_table (store : List Booking) : List LoadedBooking :=
  store.map load_booking_row

/-- The net effect of one load/save cycle on one stored booking row. -/
def normalize_booking (b : Booking) : Booking :=
  save_booking_row (load_booking_row b)

/-- A contact row of the in-memory DataFrame after `load_contacts`. -/
structure LoadedContact where
  id : Option String
  skapad : Option String
  namn : Option String
  telefon : Option String
  foretag : Option String
  mail : Option String
  kommentar : Option String
  status : String
deriving DecidableEq, Repr

/-- Reading one stored contact row. -/
def load_contact_row (c : Contact) : LoadedContact :=
  { id := naCoerce c.id, skapad := naCoerce c.skapad, namn := naCoerce c.namn,
    telefon := naCoerce c.telefon, foretag := naCoerce c.foretag,
    mail := naCoerce c.mail, kommentar := naCoerce c.kommentar,
    status := (naCoerce c.status).getD "Ny" }

/-- Writing one loaded contact row back. -/
def save_contact_row (l : LoadedContact) : Contact :=
  { id := l.id.getD "", skapad := l.skapad.getD "", namn := l.namn.getD "",
    telefon := l.telefon.getD "", foretag := l.foretag.getD "",
    mail := l.mail.getD "", kommentar := l.kommentar.getD "",
    status := l.status }

/-- `load_contacts()` over the stored table. -/
def load_contacts_table (store : List Contact) : List LoadedContact :=
  store.map load_contact_row

/-- The net effect of one load/save cycle on one stored contact row. -/
def normalize_contact (c : Contact) : Contact :=
  save_contact_row (load_contact_row c)

/-! ## Form submission handlers (page "Ny post") -/

/-- Python `str.strip()`: drop whitespace from both ends. -/
def String.strip (s : String) : String :=
  ⟨((s.data.dropWhile Char.isWhitespace).reverse.dropWhile Char.isWhitespace).reverse⟩

/-- The booking form validation: the three required text fields are checked
in order and every violation is collected (`errors.append(...)` in the
handler). -/
def validate_booking (kund uppdrag plats : String) : List String :=
  (if kund.strip = "" then ["Kund saknas."] else []) ++
  (if uppdrag.strip = "" then ["Uppdrag saknas."] else []) ++
  (if plats.strip = "" then ["Plats saknas."] else [])

/-- Model of `append_booking`: `load_bookings()` (which NA-coerces the
stored cells), `pd.concat` with the freshly built row (whose dict strings
stay verbatim), then `save_bookings` (which writes NaN as empty).  The
prior rows are therefore stored NA-normalized, the new row verbatim. -/
def append_booking (store : List Booking) (row : Booking) : List Booking :=
  (load_bookings_table store).map save_booking_row ++ [row]

/-- Model of `append_contact`, same shape as `append_booking`. -/
def append_contact (store : List Contact) (row : Contact) : List Contact :=
  (load_contacts_table store).map save_contact_row ++ [row]

/-- The booking submission handler: validate; on failure show the error
list and leave the store untouched; on success build the row (with the
freshly generated uuid `bookingId` and clock reading `nowIso` passed in as
parameters) and `append_booking` it.  `datum`/`tid` arrive already
formatted (`str(datum)`, `tid.strftime("%H:%M")`).  Returns the new store
and the list of error messages. -/
def booking_submit (store : List Booking)
    (kund uppdrag datum tid plats ersattning : String)
    (bookingId nowIso : String) : List Booking × List String :=
  let errors := validate_booking kund uppdrag plats
  if errors = [] then
    (append_booking store
      { id := bookingId, skapad := nowIso, kund := kund.strip,
        uppdrag := uppdrag.strip, datum := datum, tid := tid,
        plats := plats.strip, ersattning := ersattning.strip,
        status := "Ny" }, [])
  else (store, errors)

/-- The row dict the booking handler builds on successful validation
(definitionally the row `booking_submit` appends). -/
def mk_booking_row (kund uppdrag datum tid plats ersattning bid now : String) : Booking :=
  { id := bid, skapad := now, kund := kund.strip, uppdrag := uppdrag.strip,
    datum := datum, tid := tid, plats := plats.strip,
    ersattning := ersattning.strip, status := "Ny" }

/-- The contact form validation (`cerrs` in the handler): name and mail
are the required fields. -/
def validate_contact (namn mail : String) : List String :=
  (if namn.strip = "" then ["Namn saknas."] else []) ++
  (if mail.strip = "" then ["Mail saknas."] else [])

/-- The contact submission handler, mirroring `booking_submit`. -/
def contact_submit (store : List Contact)
    (namn telefon foretag mail kommentar : String)
    (cid nowIso : String) : List Contact × List String :=
  let errors := validate_contact namn mail
  if errors = [] then
    (append_contact store
      { id := cid, skapad := nowIso, namn := namn.strip,
        telefon := telefon.strip, foretag := foretag.strip,
        mail := mail.strip, kommentar := kommentar.strip,
        status := "Ny" }, [])
  else (store, errors)

/-- The row dict the contact handler builds on successful validation
(definitionally the row `contact_submit` appends). -/
def mk_contact_row (namn telefon foretag mail kommentar cid now : String) : Contact :=
  { id := cid, skapad := now, namn := namn.strip, telefon := telefon.strip,
    foretag := foretag.strip, mail := mail.strip,
    kommentar := kommentar.strip, status := "Ny" }

/-! ## Webhook dispatcher (`send_to_make`) -/

/-- What the single `requests.post` call would produce: either an HTTP
response (status code and body text) or a transport-level exception whose
rendered summary is `msg`. -/
inductive NetResult where
  | response (status : Nat) (body : String)
  | exn (msg : String)
deriving DecidableEq, Repr

/-- Python string slicing `s[:n]`. -/
def truncateStr (n : Nat) (s : String) : String := ⟨s.data.take n⟩

/-- Model of `send_to_make(webhook_url, payload, headers)`: empty url short-circuits
before any network call; otherwise the response (or exception) `net` of the
POST is classified into the `(ok, message)` pair the code returns. -/
def send_to_make (webhook_url : String) (net : NetResult) : Bool × String :=
  if webhook_url = "" then (false, "Ingen webhook-url angiven.")
  else
    match net with
    | .response s body =>
        if 200 ≤ s ∧ s < 300 then
          (true, "Webhook OK (status " ++ toString s ++ ").")
        else
          (false, "Webhook fel (status " ++ toString s ++ "): " ++
            truncateStr 500 body)
    | .exn m => (false, "Webhook undantag: " ++ m)

example : send_to_make "" (.response 200 "b") = (false, "Ingen webhook-url angiven.") := by decide
example : send_to_make "http://x" (.response 204 "b") = (true, "Webhook OK (status 204).") := by decide
example : send_to_make "http://x" (.response 500 "oops") =
    (false, "Webhook fel (status 500): oops") := by decide
example : send_to_make "http://x" (.exn "timeout") =
    (false, "Webhook undantag: timeout") := by decide

/-! ## Payload builder (`build_booking_payload`)

`datetime.strptime(s, "%Y-%m-%d %H:%M")` is modelled by translating the
regex that the Python `_strptime` module builds for this format:
`%Y` is four digits, `%m` is `1[0-2]|0[1-9]|[1-9]`, `%d` is
`3[01]|[12]\d|0[1-9]|[1-9]`, a whitespace in the format matches one or
more whitespace characters, `%H` is `2[0-3]|[0-1]\d|\d`, `%M` is
`[0-5]\d|\d`, literals `-` and `:` match themselves, trailing unconverted
input is an error, and the subsequent `datetime` construction is an error
for year 0 or a day beyond the length of the month.  In this format every
two-digit alternative is followed by a non-digit literal, so ordered
greedy alternation (no backtracking) agrees with the regex engine. -/

def digitVal (c : Char) : Nat := c.toNat - 48

def isDigitChar (c : Char) : Bool := '0' ≤ c ∧ c ≤ '9'

/-- Year field `%Y`: exactly four digits. -/
def parseYear4 : List Char → Option (Nat × List Char)
  | a :: b :: c :: d :: rest =>
      if isDigitChar a ∧ isDigitChar b ∧ isDigitChar c ∧ isDigitChar d then
        some (1000 * digitVal a + 100 * digitVal b + 10 * digitVal c + digitVal d, rest)
      else none
  | _ => none

/-- Month field `%m`: `1[0-2]|0[1-9]|[1-9]`. -/
def parseMonth2 : List Char → Option (Nat × List Char)
  | '1' :: c :: rest =>
      if '0' ≤ c ∧ c ≤ '2' then some (10 + digitVal c, rest) else some (1, c :: rest)
  | '0' :: c :: rest =>
      if '1' ≤ c ∧ c ≤ '9' then some (digitVal c, rest) else none
  | c :: rest =>
      if '2' ≤ c ∧ c ≤ '9' then some (digitVal c, rest) else none
  | [] => none

/-- Day field `%d`: `3[01]|[12]\d|0[1-9]|[1-9]`. -/
def parseDay2 : List Char → Option (Nat × List Char)
  | '3' :: c :: rest =>
      if '0' ≤ c ∧ c ≤ '1' then some (30 + digitVal c, rest) else some (3, c :: rest)
  | '1' :: c :: rest =>
      if isDigitChar c then some (10 + digitVal c, rest) else some (1, c :: rest)
  | '2' :: c :: rest =>
      if isDigitChar c then some (20 + digitVal c, rest) else some (2, c :: rest)
  | '0' :: c :: rest =>
      if '1' ≤ c ∧ c ≤ '9' then some (digitVal c, rest) else none
  | c :: rest =>
      if '1' ≤ c ∧ c ≤ '9' then some (digitVal c, rest) else none
  | [] => none

/-- Hour field `%H`: `2[0-3]|[0-1]\d|\d`. -/
def parseHour2 : List Char → Option (Nat × List Char)
  | '2' :: c :: rest =>
      if '0' ≤ c ∧ c ≤ '3' then some (20 + digitVal c, rest) else some (2, c :: rest)
  | '0' :: c :: rest =>
      if isDigitChar c then some (digitVal c, rest) else some (0, c :: rest)
  | '1' :: c :: rest =>
      if isDigitChar c then some (10 + digitVal c, rest) else some (1, c :: rest)
  | c :: rest =>
      if isDigitChar c then some (digitVal c, rest) else none
  | [] => none

/-- Minute field `%M`: `[0-5]\d|\d`. -/
def parseMinute2 : List Char → Option (Nat × List Char)
  | c1 :: c2 :: rest =>
      if ('0' ≤ c1 ∧ c1 ≤ '5') ∧ isDigitChar c2 then
        some (10 * digitVal c1 + digitVal c2, rest)
      else if isDigitChar c1 then some (digitVal c1, c2 :: rest)
      else none
  | [c1] => if isDigitChar c1 then some (digitVal c1, []) else none
  | [] => none

/-- A literal character of the format. -/
def expectChar (c : Char) : List Char → Option (List Char)
  | c' :: rest => if c' = c then some rest else none
  | [] => none

/-- A whitespace in the format matches one or more whitespace characters. -/
def skipWs1 : List Char → Option (List Char)
  | c :: rest => if c.isWhitespace then some (rest.dropWhile Char.isWhitespace) else none
  | [] => none

def leapYear (y : Nat) : Bool := y % 4 = 0 ∧ (y % 100 ≠ 0 ∨ y % 400 = 0)

def daysInMonth (y m : Nat) : Nat :=
  if m = 2 then (if leapYear y then 29 else 28)
  else if m = 4 ∨ m = 6 ∨ m = 9 ∨ m = 11 then 30
  else 31

/-- Model of `datetime.strptime(s, "%Y-%m-%d %H:%M")`, returning the five parsed
components, or `none` where Python raises `ValueError`. -/
def strptimeYmdHM (s : String) : Option (Nat × Nat × Nat × Nat × Nat) :=
  match parseYear4 s.data with
  | none => none
  | some (y, r1) =>
    match expectChar '-' r1 with
    | none => none
    | some r2 =>
      match parseMonth2 r2 with
      | none => none
      | some (m, r3) =>
        match expectChar '-' r3 with
        | none => none
        | some r4 =>
          match parseDay2 r4 with
          | none => none
          | some (d, r5) =>
            match skipWs1 r5 with
            | none => none
            | some r6 =>
              match parseHour2 r6 with
              | none => none
              | some (hh, r7) =>
                match expectChar ':' r7 with
                | none => none
                | some r8 =>
                  match parseMinute2 r8 with
                  | none => none
                  | some (mm, r9) =>
                    if r9 = [] ∧ 1 ≤ y ∧ d ≤ daysInMonth y m then
                      some (y, m, d, hh, mm)
                    else none

/-- Cumulative days before month `m` in a year (`leap` for a leap year). -/
def daysBeforeMonth (leap : Bool) (m : Nat) : Nat :=
  let base :=
    match m with
    | 1 => 0 | 2 => 31 | 3 => 59 | 4 => 90 | 5 => 120 | 6 => 151
    | 7 => 181 | 8 => 212 | 9 => 243 | 10 => 273 | 11 => 304 | _ => 334
  if leap ∧ 3 ≤ m then base + 1 else base

/-- Days from 1970-01-01 to the civil date `y-m-d` (proleptic Gregorian,
`y ≥ 1`); 719162 is the day count from year 1 to the epoch. -/
def daysFromCivil (y m d : Nat) : Int :=
  (((365 * (y - 1) + (y - 1) / 4 + (y - 1) / 400 - (y - 1) / 100
      + daysBeforeMonth (leapYear y) m + (d - 1) : Int)) : Int) - 719162

def pad2 (n : Nat) : String := if n < 10 then "0" ++ toString n else toString n

def pad4 (n : Nat) : String :=
  if n < 10 then "000" ++ toString n
  else if n < 100 then "00" ++ toString n
  else if n < 1000 then "0" ++ toString n
  else toString n

/-- Rendering `dt.isoformat(timespec="minutes")`. -/
def isoMinutes (y m d hh mm : Nat) : String :=
  pad4 y ++ "-" ++ pad2 m ++ "-" ++ pad2 d ++ "T" ++ pad2 hh ++ ":" ++ pad2 mm

/-- Model of `int(dt_local.timestamp() * 1000)`: the naive datetime is interpreted in
the system local timezone, whose UTC offset in seconds (east positive) for
this instant is the explicit parameter `tzOff`. -/
def epochMsLocal (y m d hh mm : Nat) (tzOff : Int) : Int :=
  (daysFromCivil y m d * 86400 + (hh : Int) * 3600 + (mm : Int) * 60 - tzOff) * 1000

/-- The payload dict `build_booking_payload` returns, flattened: the
`derived` fields and the `meta` block beside the constant tags. -/
structure BookingPayload where
  type : String
  version : Nat
  booking : Booking
  start_local_iso : Option String
  start_epoch_ms : Option Int
  sent_at : String
  app_title : String
  source : String
deriving DecidableEq, Repr

/-- Model of `build_booking_payload(row)`; `tzOff` is the local UTC offset used by
`timestamp()` and `nowIso` the `datetime.now()` reading for `meta.sent_at`. -/
def build_booking_payload (row : Booking) (tzOff : Int) (nowIso : String) : BookingPayload :=
  match strptimeYmdHM (row.datum ++ " " ++ row.tid) with
  | some (y, m, d, hh, mm) =>
      { type := "booking_created", version := 1, booking := row,
        start_local_iso := some (isoMinutes y m d hh mm),
        start_epoch_ms := some (epochMsLocal y m d hh mm tzOff),
        sent_at := nowIso, app_title := "Bokningar", source := "streamlit" }
  | none =>
      { type := "booking_created", version := 1, booking := row,
        start_local_iso := none, start_epoch_ms := none,
        sent_at := nowIso, app_title := "Bokningar", source := "streamlit" }

example : strptimeYmdHM "2025-03-10 09:00" = some (2025, 3, 10, 9, 0) := by decide
example : strptimeYmdHM "2025-3-1 9:5" = some (2025, 3, 1, 9, 5) := by decide
example : strptimeYmdHM "2025-02-30 09:00" = none := by decide
example : strptimeYmdHM "2025-13-10 09:00" = none := by decide
example : strptimeYmdHM "2025-03-10 09:00x" = none := by decide
example : daysFromCivil 2025 3 10 = 20157 := by decide
example : daysFromCivil 1970 1 1 = 0 := by decide

/-! ## Loading and status normalization (`load_bookings` / `load_contacts`)

A raw stored row as `pd.read_csv(..., dtype=str)` yields it: the `status`
cell is `Option String`, `none` standing for a missing `status` column or
a NaN cell (pandas reads an empty cell as NaN).  The remaining cells are
kept as an association list so the same model covers both tables. -/

structure RawRec where
  id : String
  status : Option String
  fields : List (String × String)
deriving DecidableEq, Repr

/-- A row after loading: `status` is always populated. -/
structure Rec where
  id : String
  status : String
  fields : List (String × String)
deriving DecidableEq, Repr

/-- The status normalization both loaders perform:
`df["status"] = df["status"].fillna("Ny")` (and `df["status"] = "Ny"` when
the column is absent, i.e. every cell is `none`).  Nothing else of the row
is touched, and unrecognized non-null values pass through. -/
def load_table (raw : List RawRec) : List Rec :=
  raw.map (fun r => { id := r.id, status := r.status.getD "Ny", fields := r.fields })

/-! ## Kanban status-change handler

`df = load_bookings()`, then `df.loc[df["id"] == row["id"], "status"] =
new_status`, then `save_bookings(df)` (and the same for contacts): a
masked assignment over the LOADED frame followed by a save of the whole
frame.  There is no lookup that could fail: an id matching no row makes
the assignment a silent no-op and the loaded frame is saved as-is — which
still NA-normalizes the stored bytes.  A generic row model covers both
tables: `SRow` is a stored row (raw CSV cells, the non-id non-status
columns as named cells), `LRow` the corresponding loaded row. -/

structure SRow where
  id : String
  status : String
  fields : List (String × String)
deriving DecidableEq, Repr

structure LRow where
  id : Option String
  status : String
  fields : List (String × Option String)
deriving DecidableEq, Repr

/-- Reading one stored row (`read_csv` NA handling, `fillna("Ny")` on
`status`). -/
def load_row (r : SRow) : LRow :=
  { id := naCoerce r.id, status := (naCoerce r.status).getD "Ny",
    fields := r.fields.map (fun p => (p.1, naCoerce p.2)) }

/-- Writing one loaded row back (`to_csv` writes NaN as empty). -/
def save_row (l : LRow) : SRow :=
  { id := l.id.getD "", status := l.status,
    fields := l.fields.map (fun p => (p.1, p.2.getD "")) }

/-- The masked assignment on the loaded frame: `df["id"] == tid` compares
a NaN id as unequal, so a row matches exactly when its loaded id is
`some tid`. -/
def mask_update (df : List LRow) (tid ns : String) : List LRow :=
  df.map (fun r => if r.id = some tid then { r with status := ns } else r)

/-- The whole status-change operation on the stored table: load, masked
assignment, save. -/
def update_status_store (tbl : List SRow) (tid ns : String) : List SRow :=
  (mask_update (tbl.map load_row) tid ns).map save_row

/-- The handler run as a fallible operation (Python exceptions modelled by
`Except`): the load, masked assignment and save never raise, so every run
is `.ok`. -/
def update_status_run (tbl : List SRow) (tid ns : String) : Except String (List SRow) :=
  .ok (update_status_store tbl tid ns)

/-! ## Kanban board projection -/

/-- A board card: the columns the Kanban page derives before bucketing
(`typ`, `titel`, `beskrivning`) together with the id and
status. -/
structure Card where
  typ : String
  id : String
  titel : String
  beskrivning : String
  status : String
deriving DecidableEq, Repr

/-- The booking-to-card derivation of the Kanban page. -/
def mkBookingCard (b : Booking) : Card :=
  { typ := "Bokning", id := b.id,
    titel := b.kund ++ " – " ++ b.uppdrag,
    beskrivning := "📅 " ++ b.datum ++ " " ++ b.tid ++ "\n📍 " ++ b.plats
      ++ "\n💰 " ++ b.ersattning,
    status := b.status }

/-- The contact-to-card derivation of the Kanban page. -/
def mkContactCard (c : Contact) : Card :=
  { typ := "Kontakt", id := c.id,
    titel := c.namn ++ " – " ++ c.foretag,
    beskrivning := "📞 " ++ c.telefon ++ "\n✉️ " ++ c.mail ++ "\n" ++ c.kommentar,
    status := c.status }

/-- The combined card list `all_items = pd.concat([bk, ct])`: bookings first, then contacts. -/
def all_items (bs : List Booking) (cs : List Contact) : List Card :=
  bs.map mkBookingCard ++ cs.map mkContactCard

/-- One board column: `all_items[all_items["status"] == status]`. -/
def kanban_bucket (bs : List Booking) (cs : List Contact) (s : String) : List Card :=
  (all_items bs cs).filter (fun c => c.status = s)

/-- The four board columns in display order. -/
def kanban_buckets (bs : List Booking) (cs : List Contact) : List (String × List Card) :=
  KANBAN_STATI.map (fun s => (s, kanban_bucket bs cs s))

/-! ## The CSV layer (`df.to_csv(index=False)` / `pd.read_csv(dtype=str)`)

`to_csv` writes a header row and one line per record, separated by `\n`,
quoting minimally: a field is wrapped in double quotes, with inner quotes
doubled, exactly when it contains a delimiter, a quote or a line break.
The reader is the matching RFC-4180 state machine.  (Cell-level NA
conversion — pandas reading an empty cell back as NaN and writing NaN as
an empty cell, which is stable across a write/read/write cycle — is
below this model's level of abstraction: cells are plain strings.) -/

def csvSpecialChar (c : Char) : Bool := c = ',' ∨ c = '"' ∨ c = '\n' ∨ c = '\r'

def needsQuote (f : List Char) : Bool := f.any csvSpecialChar

/-- Double every quote character of a field body. -/
def escQuotes : List Char → List Char
  | [] => []
  | '"' :: rest => '"' :: '"' :: escQuotes rest
  | c :: rest => c :: escQuotes rest

/-- Minimal quoting of one field. -/
def escapeField (f : List Char) : List Char :=
  if needsQuote f then '"' :: (escQuotes f ++ ['"']) else f

/-- One CSV line: the escaped fields joined by commas. -/
def writeRowChars : List (List Char) → List Char
  | [] => []
  | [f] => escapeField f
  | f :: fs => escapeField f ++ ',' :: writeRowChars fs

/-- A whole file: every line terminated by a newline. -/
def writeCsvChars : List (List (List Char)) → List Char
  | [] => []
  | r :: rs => writeRowChars r ++ '\n' :: writeCsvChars rs

/-- The CSV reader: a single pass over the characters.  `inQ` is the
inside-quotes state, `field` the characters of the current field, `row`
the completed fields of the current line. -/
def csvScan : List Char → Bool → List Char → List String → List (List String)
  | [], _, field, row =>
      if field = [] ∧ row = [] then [] else [row ++ [⟨field⟩]]
  | '"' :: '"' :: rest, true, field, row => csvScan rest true (field ++ ['"']) row
  | '"' :: rest, true, field, row => csvScan rest false field row
  | c :: rest, true, field, row => csvScan rest true (field ++ [c]) row
  | '"' :: rest, false, field, row => csvScan rest true field row
  | ',' :: rest, false, field, row => csvScan rest false [] (row ++ [⟨field⟩])
  | '\n' :: rest, false, field, row => (row ++ [⟨field⟩]) :: csvScan rest false [] []
  | c :: rest, false, field, row => csvScan rest false (field ++ [c]) row

/-- String-level writer: rows of string cells to the file text. -/
def writeCsv (rows : List (List String)) : String :=
  ⟨writeCsvChars (rows.map (fun r => r.map String.data))⟩

/-- String-level reader. -/
def parseCsv (s : String) : List (List String) :=
  csvScan s.data false [] []

example : parseCsv (writeCsv [["a", "b,c", "d\"e"], ["", "x\ny", ""]]) =
    [["a", "b,c", "d\"e"], ["", "x\ny", ""]] := by decide
example : parseCsv "id,kund\n1,Acme\n" = [["id", "kund"], ["1", "Acme"]] := by decide

/-! ## Export / Import page -/

/-- The nine canonical booking columns (`required_cols` in the import, and
the header `to_csv` writes). -/
def bookingCols : List String :=
  ["id", "skapad", "kund", "uppdrag", "datum", "tid", "plats", "ersattning", "status"]

/-- The eight canonical contact columns. -/
def contactCols : List String :=
  ["id", "skapad", "namn", "telefon", "foretag", "mail", "kommentar", "status"]

/-- A booking row as its CSV cells, in canonical column order. -/
def Booking.toFields (b : Booking) : List String :=
  [b.id, b.skapad, b.kund, b.uppdrag, b.datum, b.tid, b.plats, b.ersattning, b.status]

/-- A contact row as its CSV cells, in canonical column order. -/
def Contact.toFields (c : Contact) : List String :=
  [c.id, c.skapad, c.namn, c.telefon, c.foretag, c.mail, c.kommentar, c.status]

/-- The export download: `df = load_bookings()` then
`df.to_csv(index=False)` — header row then the LOADED records as `to_csv`
writes them, i.e. the stored cells NA-normalized (a stored "N/A" exports
as an empty cell) and the status cells filled. -/
def export_bookings (tbl : List Booking) : String :=
  writeCsv (bookingCols :: tbl.map (fun b => (normalize_booking b).toFields))

/-- Python `str.lower()` on a column label, character by character. -/
def lowerStr (s : String) : String := ⟨s.data.map Char.toLower⟩

/-- Updating one entry of the duplicate-count table of `dedup_names`. -/
def setCount (counts : List (String × Nat)) (k : String) (v : Nat) :
    List (String × Nat) :=
  if counts.any (fun p => p.1 = k) then
    counts.map (fun p => if p.1 = k then (k, v) else p)
  else counts ++ [(k, v)]

/-- The inner while loop of pandas `dedup_names`: while the candidate
label is already used, bump its count and append ".count" to the label.
The fuel bounds the chain length; a chain visits distinct, strictly
longer labels that must all be in the count table, so `header.length + 1`
fuel is never exhausted on real headers. -/
def dedupLoop : Nat → List (String × Nat) → String → Nat → String × List (String × Nat)
  | 0, counts, col, _ => (col, counts)
  | fuel + 1, counts, col, cur =>
      if cur = 0 then (col, counts)
      else
        let counts2 := setCount counts col (cur + 1)
        let col2 := col ++ "." ++ toString cur
        dedupLoop fuel counts2 col2 ((counts2.lookup col2).getD 0)

/-- pandas mangles duplicate column names on read: the second "id" of an
`id,id` header becomes "id.1", cascading when the mangled name collides
again (`dedup_names` in pandas).  Distinct names — including case
variants like "ID" and "id" — are untouched. -/
def mangleHeader (header : List String) : List String :=
  (header.foldl
    (fun (acc : List String × List (String × Nat)) col =>
      let cur := ((acc.2.lookup col).getD 0)
      let step := dedupLoop (header.length + 1) acc.2 col cur
      (acc.1 ++ [step.1],
       setCount step.2 step.1 (((step.2.lookup step.1).getD 0) + 1)))
    ([], [])).1

/-- Model of `pd.read_csv(uploaded, dtype=str)`: parse the text, mangle
duplicate header names, NA-coerce every data cell; `none` models the
handler catching a read failure (e.g. an empty file). -/
def read_csv_model (s : String) :
    Option (List String × List (List (Option String))) :=
  match parseCsv s with
  | [] => none
  | header :: dataRows =>
      some (mangleHeader header, dataRows.map (fun r => r.map naCoerce))

/-- The column selection `new_df[[...]]` of the import: for each requested
name, every position of the (lowered) header carrying that label, grouped
per requested name in request order, in header order within a group —
pandas label-based selection semantics, which keeps duplicate labels. -/
def selectIdxs (required lower : List String) : List Nat :=
  required.flatMap
    (fun c => (List.range lower.length).filter (fun i => lower.get? i = some c))

/-- The import handler, generic in the required column set:
`pd.read_csv(dtype=str)` (with its duplicate-name mangling and NA
coercion), the case-insensitive required-column check, the lowering of
the column labels, the label-based column selection `new_df[[...]]`
(which, as in pandas, keeps every column whose lowered label matches a
requested name — grouped per requested name, in header order within a
group), and the save (`to_csv` writes NaN cells as empty).  Returns the
saved table as its header labels and its rows of cells, or the error
message of the page. -/
def importTable (required : List String) (s : String) :
    Except String (List String × List (List String)) :=
  match read_csv_model s with
  | none => .error "Kunde inte läsa CSV"
  | some (header, dataRows) =>
      let lower := header.map lowerStr
      if required.all (fun c => lower.contains c) then
        let idxs := selectIdxs required lower
        .ok (idxs.map (fun i => (lower.get? i).getD ""),
             dataRows.map (fun r => idxs.map (fun i => ((r.get? i).getD none).getD "")))
      else .error "CSV saknar nödvändiga kolumner (inkl. status)."

/-- The booking import of the Export / Import page. -/
def import_bookings (s : String) : Except String (List String × List (List String)) :=
  importTable bookingCols s

/-- Modelled from the spec: the source implements the Export / Import page
for bookings only; §4.1 and §6 of the spec give `export(kind)` and
`replace_all(kind)` the same flat-file contract for both kinds, so the
contact instances reuse the booking machinery over the contact column
set. -/
def export_contacts (tbl : List Contact) : String :=
  writeCsv (contactCols :: tbl.map (fun c => (normalize_contact c).toFields))

/-- Modelled from the spec: contact counterpart of `import_bookings`
(see `export_contacts`). -/
def import_contacts (s : String) : Except String (List String × List (List String)) :=
  importTable contactCols s

example :
    import_bookings (export_bookings
      [{ id := "1", skapad := "t", kund := "A, B", uppdrag := "u", datum := "d",
         tid := "09:00", plats := "p\"q", ersattning := "", status := "Ny" }]) =
    .ok (bookingCols, [["1", "t", "A, B", "u", "d", "09:00", "p\"q", "", "Ny"]]) := by rfl

example : naCoerce "N/A" = none := by decide
example : naCoerce "Acme" = some "Acme" := by decide
example : mangleHeader ["id", "id", "skapad"] = ["id", "id.1", "skapad"] := by decide
example : mangleHeader ["ID", "id", "skapad"] = ["ID", "id", "skapad"] := by decide
example :
    import_bookings
      "id,id,skapad,kund,uppdrag,datum,tid,plats,ersattning,status\n0,1,2,3,4,5,6,7,8,9\n" =
      .ok (bookingCols, [["0", "2", "3", "4", "5", "6", "7", "8", "9"]]) := by rfl

/-! ## Theorems -/

/-- C2: whenever a required field is blank after trimming, submission
fails, the error list names exactly the blank required fields (all
violations collected), and the store is unchanged — for both the booking
and the contact form. -/
theorem c2_validation_exact :
    (∀ (store : List Booking) (kund uppdrag datum tid plats ersattning bid now : String),
      (kund.strip = "" ∨ uppdrag.strip = "" ∨ plats.strip = "") →
      booking_submit store kund uppdrag datum tid plats ersattning bid now =
        (store, validate_booking kund uppdrag plats) ∧
      validate_booking kund uppdrag plats ≠ [] ∧
      ("Kund saknas." ∈ validate_booking kund uppdrag plats ↔ kund.strip = "") ∧
      ("Uppdrag saknas." ∈ validate_booking kund uppdrag plats ↔ uppdrag.strip = "") ∧
      ("Plats saknas." ∈ validate_booking kund uppdrag plats ↔ plats.strip = "") ∧
      (∀ e ∈ validate_booking kund uppdrag plats,
        e = "Kund saknas." ∨ e = "Uppdrag saknas." ∨ e = "Plats saknas.")) ∧
    (∀ (store : List Contact) (namn telefon foretag mail kommentar cid now : String),
      (namn.strip = "" ∨ mail.strip = "") →
      contact_submit store namn telefon foretag mail kommentar cid now =
        (store, validate_contact namn mail) ∧
      validate_contact namn mail ≠ [] ∧
      ("Namn saknas." ∈ validate_contact namn mail ↔ namn.strip = "") ∧
      ("Mail saknas." ∈ validate_contact namn mail ↔ mail.strip = "") ∧
      (∀ e ∈ validate_contact namn mail,
        e = "Namn saknas." ∨ e = "Mail saknas.")) := by
  constructor
  · intro store kund uppdrag datum tid plats ersattning bid now hblank
    by_cases h1 : kund.strip = "" <;> by_cases h2 : uppdrag.strip = "" <;>
      by_cases h3 : plats.strip = "" <;>
      simp_all [booking_submit, validate_booking]
  · intro store namn telefon foretag mail kommentar cid now hblank
    by_cases h1 : namn.strip = "" <;> by_cases h2 : mail.strip = "" <;>
      simp_all [contact_submit, validate_contact]

/-- C2 witness: a blank customer field on the booking form and a blank
mail field on the contact form are each reported exactly, with the store
untouched. -/
theorem c2_witness :
    booking_submit [] "  " "Uppdrag" "2025-06-01" "14:30" "Plats" "" "b1" "t1" =
      ([], ["Kund saknas."]) ∧
    contact_submit [] "Namn" "070" "AB" "   " "hej" "c1" "t1" =
      ([], ["Mail saknas."]) := by
  have hb := (c2_validation_exact.1 [] "  " "Uppdrag" "2025-06-01" "14:30" "Plats" ""
    "b1" "t1" (Or.inl (by decide))).1
  have hc := (c2_validation_exact.2 [] "Namn" "070" "AB" "   " "hej" "c1" "t1"
    (Or.inr (by decide))).1
  exact ⟨hb.trans (by decide), hc.trans (by decide)⟩

/-- C3: `send_to_make` classifies every outcome at its boundary: an empty
url yields the skip result with a value independent of the network oracle
(no request is made), a 2xx response yields the success pair carrying the
status, any other status yields the failure pair carrying the status and
the body truncated to at most 500 characters, and a transport exception
yields the failure pair with the exception summary. -/
theorem c3_dispatch_classification (url : String) (net : NetResult) :
    (url = "" → ∀ net2 : NetResult,
      send_to_make url net2 = (false, "Ingen webhook-url angiven.")) ∧
    (∀ s body, url ≠ "" → net = .response s body → 200 ≤ s → s < 300 →
      send_to_make url net = (true, "Webhook OK (status " ++ toString s ++ ").")) ∧
    (∀ s body, url ≠ "" → net = .response s body → ¬(200 ≤ s ∧ s < 300) →
      send_to_make url net =
        (false, "Webhook fel (status " ++ toString s ++ "): " ++ truncateStr 500 body) ∧
      (truncateStr 500 body).length ≤ 500) ∧
    (∀ m, url ≠ "" → net = .exn m →
      send_to_make url net = (false, "Webhook undantag: " ++ m)) := by
  refine ⟨?_, ?_, ?_, ?_⟩
  · intro hurl net2
    subst hurl
    simp [send_to_make]
  · intro s body hurl hnet h200 h300
    subst hnet
    simp [send_to_make, hurl, h200, h300]
  · intro s body hurl hnet hbad
    subst hnet
    refine ⟨by simp [send_to_make, hurl, hbad], ?_⟩
    show (body.data.take 500).length ≤ 500
    simp [List.length_take]
  · intro m hurl hnet
    subst hnet
    simp [send_to_make, hurl]

/-- C3 witness: the four classifications at concrete inputs. -/
theorem c3_witness :
    send_to_make "" (.response 200 "b") = (false, "Ingen webhook-url angiven.") ∧
    send_to_make "https://hook.eu2.make.com/x" (.response 204 "") =
      (true, "Webhook OK (status 204).") ∧
    send_to_make "https://hook.eu2.make.com/x" (.response 500 "oops") =
      (false, "Webhook fel (status 500): " ++ truncateStr 500 "oops") ∧
    send_to_make "https://hook.eu2.make.com/x" (.exn "timeout") =
      (false, "Webhook undantag: timeout") := by
  refine ⟨(c3_dispatch_classification "" (.response 200 "b")).1 rfl _,
    (c3_dispatch_classification "https://hook.eu2.make.com/x" (.response 204 "")).2.1
      204 "" (by decide) rfl (by decide) (by decide),
    ((c3_dispatch_classification "https://hook.eu2.make.com/x" (.response 500 "oops")).2.2.1
      500 "oops" (by decide) rfl (by decide)).1,
    (c3_dispatch_classification "https://hook.eu2.make.com/x" (.exn "timeout")).2.2.2
      "timeout" (by decide) rfl⟩

/-- C5 counterexample: a stored status the board does not recognize is NOT
coerced to "Ny" by loading — it survives as-is and is outside the four
enum values, refuting the claim that load coerces unrecognized values. -/
theorem c5_counterexample :
    load_table [{ id := "b1", status := some "Banana", fields := [] }] =
      [{ id := "b1", status := "Banana", fields := [] }] ∧
    "Banana" ∉ KANBAN_STATI := ⟨rfl, by decide⟩

/-- C5 amended: loading preserves length and every field of every record,
always populates `status`, coerces an absent (missing column or NaN)
status to "Ny", and passes any present status value through unchanged,
recognized or not. -/
theorem c5_amended_load_status (raw : List RawRec) (i : Nat) (r : RawRec)
    (h : raw.get? i = some r) :
    (load_table raw).length = raw.length ∧
    ∃ rec : Rec, (load_table raw).get? i = some rec ∧
      rec.id = r.id ∧ rec.fields = r.fields ∧
      rec.status = r.status.getD "Ny" ∧
      (r.status = none → rec.status = "Ny") ∧
      (∀ s, r.status = some s → rec.status = s) := by
  refine ⟨by simp [load_table], ?_⟩
  refine ⟨{ id := r.id, status := r.status.getD "Ny", fields := r.fields }, ?_,
    rfl, rfl, rfl, ?_, ?_⟩
  · rw [List.get?_eq_getElem?] at h
    simp [load_table, List.get?_eq_getElem?, List.getElem?_map, h]
  · intro h0; simp [h0]
  · intro s hs; simp [hs]

/-- C5 witness: a record stored with a NaN status loads as "Ny". -/
theorem c5_witness :
    (load_table [{ id := "c1", status := none, fields := [("namn", "Eva")] }]).get? 0 =
      some { id := "c1", status := "Ny", fields := [("namn", "Eva")] } := by
  obtain ⟨-, rec, h1, h2, h3, -, h5, -⟩ :=
    c5_amended_load_status [{ id := "c1", status := none, fields := [("namn", "Eva")] }]
      0 { id := "c1", status := none, fields := [("namn", "Eva")] } rfl
  have : rec = { id := "c1", status := "Ny", fields := [("namn", "Eva")] } := by
    cases rec
    simp_all
  rw [this] at h1
  exact h1

/-- One write/read normalization step does not change what `read_csv`
sees in a cell: an NA string becomes an empty cell, itself an NA string. -/
theorem naCoerce_getD_empty (c : String) :
    naCoerce ((naCoerce c).getD "") = naCoerce c := by
  by_cases h : c ∈ NA_STRINGS
  · simp only [naCoerce, if_pos h, Option.getD_none]
    rw [if_pos (show ("" : String) ∈ NA_STRINGS by decide)]
  · simp only [naCoerce, if_neg h, Option.getD_some]

/-- A status cell the loader has filled re-loads (and re-fills) to
itself: "Ny" is not an NA string, nor is any surviving stored value. -/
theorem naCoerce_fillStatus (s : String) :
    (naCoerce ((naCoerce s).getD "Ny")).getD "Ny" = (naCoerce s).getD "Ny" := by
  unfold naCoerce
  by_cases h : s ∈ NA_STRINGS
  · rw [if_pos h]
    show (if ("Ny" : String) ∈ NA_STRINGS then none else some "Ny").getD "Ny" = "Ny"
    rw [if_neg (show ("Ny" : String) ∉ NA_STRINGS by decide)]
    rfl
  · rw [if_neg h]
    show (if s ∈ NA_STRINGS then none else some s).getD "Ny" = s
    rw [if_neg h]
    rfl

/-- Loading a saved loaded row gives the loaded row back (generic rows). -/
theorem load_save_load_row (s : SRow) :
    load_row (save_row (load_row s)) = load_row s := by
  simp [load_row, save_row, List.map_map, Function.comp,
    naCoerce_getD_empty, naCoerce_fillStatus]

/-- Loading a saved loaded row whose status was overwritten with a
non-NA value (the Kanban select only offers the four stati) gives the
overwritten loaded row back. -/
theorem load_save_masked (s : SRow) (ns : String) (hns : ns ∉ NA_STRINGS) :
    load_row (save_row { load_row s with status := ns }) =
      { load_row s with status := ns } := by
  have hs : (naCoerce ns).getD "Ny" = ns := by
    rw [naCoerce, if_neg hns]
    rfl
  simp [load_row, save_row, List.map_map, Function.comp,
    naCoerce_getD_empty, hs]

/-- The status-change operation, written as one map over the stored
table. -/
theorem update_status_store_eq (tbl : List SRow) (tid ns : String) :
    update_status_store tbl tid ns =
      tbl.map (fun s => save_row (if (load_row s).id = some tid
        then { load_row s with status := ns } else load_row s)) := by
  simp only [update_status_store, mask_update, List.map_map]
  rfl

/-- C6 counterexample: a status change for an id absent from the table
does not fail with any error — the masked assignment silently matches
nothing and the run succeeds; moreover saving the loaded frame rewrites
the stored NA-string cell "N/A" to an empty cell, so even the stored
contents are not left unchanged. -/
theorem c6_counterexample :
    update_status_run [{ id := "a1", status := "Ny", fields := [("ersattning", "N/A")] }]
      "ghost" "Klar" =
      .ok [{ id := "a1", status := "Ny", fields := [("ersattning", "")] }] := rfl

/-- C6 amended: when the id matches no loaded record, the run still
succeeds (no NotFoundError exists in the code) and saves the loaded frame
unchanged, which leaves the LOADED view of the table intact while
NA-normalizing the stored bytes (NA-string cells become empty, absent
statuses become "Ny"). -/
theorem c6_amended_update_unknown_id (tbl : List SRow) (tid ns : String)
    (h : some tid ∉ (tbl.map load_row).map LRow.id) :
    update_status_run tbl tid ns = .ok ((tbl.map load_row).map save_row) ∧
    ((tbl.map load_row).map save_row).map load_row = tbl.map load_row := by
  have aux : ∀ df : List LRow, some tid ∉ df.map LRow.id → mask_update df tid ns = df := by
    intro df
    induction df with
    | nil => intro _; rfl
    | cons r rs ih =>
        intro hdf
        simp only [List.map_cons, List.mem_cons, not_or] at hdf
        simp only [mask_update, List.map_cons]
        rw [if_neg (fun he => hdf.1 he.symm)]
        have := ih hdf.2
        simp only [mask_update] at this
        rw [this]
  constructor
  · simp [update_status_run, update_status_store, aux (tbl.map load_row) h]
  · rw [List.map_map, List.map_map]
    exact List.map_congr_left (fun s _ => load_save_load_row s)

/-- C6 witness: a concrete no-op run on a two-record table with no
NA-string cells, returned byte-identical. -/
theorem c6_witness :
    update_status_run
      [{ id := "a1", status := "Ny", fields := [] },
       { id := "b2", status := "Klar", fields := [("mail", "x@y.se")] }]
      "zz" "Arkiv" =
      .ok [{ id := "a1", status := "Ny", fields := [] },
           { id := "b2", status := "Klar", fields := [("mail", "x@y.se")] }] := by
  have h := (c6_amended_update_unknown_id
    [{ id := "a1", status := "Ny", fields := [] },
     { id := "b2", status := "Klar", fields := [("mail", "x@y.se")] }]
    "zz" "Arkiv" (by decide)).1
  exact h.trans (by rfl)

/-- C7 counterexample: changing the status of record "b2" rewrites the
stored cell "N/A" of the UNTOUCHED record "a1" to an empty cell — the
other records are not preserved byte-for-byte. -/
theorem c7_counterexample :
    update_status_run
      [{ id := "a1", status := "Ny", fields := [("ersattning", "N/A")] },
       { id := "b2", status := "Ny", fields := [] }]
      "b2" "Klar" =
      .ok [{ id := "a1", status := "Ny", fields := [("ersattning", "")] },
           { id := "b2", status := "Klar", fields := [] }] ∧
    ("" : String) ≠ "N/A" := ⟨rfl, by decide⟩

/-- C7 amended: for an id present in the loaded table and a new status
that is not an NA string (the Kanban select only offers the four stati),
the run succeeds; at the LOADED-record level it changes only the status
of the targeted records: the loaded view of every record with another id
is unchanged and a record with the id keeps its identity and all other
fields; a targeted record exists.  (Stored bytes of untouched cells are
only NA-normalized, cf. the counterexample.) -/
theorem c7_amended_update_frame (tbl : List SRow) (tid ns : String)
    (h : some tid ∈ (tbl.map load_row).map LRow.id) (hns : ns ∉ NA_STRINGS) :
    update_status_run tbl tid ns = .ok (update_status_store tbl tid ns) ∧
    (update_status_store tbl tid ns).length = tbl.length ∧
    (∀ i r, (tbl.map load_row).get? i = some r → r.id ≠ some tid →
      ((update_status_store tbl tid ns).map load_row).get? i = some r) ∧
    (∀ i r, (tbl.map load_row).get? i = some r → r.id = some tid →
      ((update_status_store tbl tid ns).map load_row).get? i =
        some { id := r.id, status := ns, fields := r.fields }) ∧
    (∃ i r, (tbl.map load_row).get? i = some r ∧ r.id = some tid) := by
  refine ⟨rfl, by simp [update_status_store, mask_update], ?_, ?_, ?_⟩
  · intro i r hget hne
    rw [List.get?_eq_getElem?, List.getElem?_map] at hget
    obtain ⟨s, hs, rfl⟩ := Option.map_eq_some'.1 hget
    rw [update_status_store_eq, List.get?_eq_getElem?, List.getElem?_map,
      List.getElem?_map, hs]
    simp only [Option.map_some']
    rw [if_neg hne, load_save_load_row]
  · intro i r hget heq
    rw [List.get?_eq_getElem?, List.getElem?_map] at hget
    obtain ⟨s, hs, rfl⟩ := Option.map_eq_some'.1 hget
    rw [update_status_store_eq, List.get?_eq_getElem?, List.getElem?_map,
      List.getElem?_map, hs]
    simp only [Option.map_some']
    rw [if_pos heq, load_save_masked s ns hns]
  · obtain ⟨r, hr, he⟩ := List.mem_map.1 h
    obtain ⟨n, hn⟩ := List.get?_of_mem hr
    exact ⟨n, r, hn, he⟩

/-- C7 witness: updating "a1" to "Arkiv" in a two-record table (no
NA-string cells) changes only the status of that record. -/
theorem c7_witness :
    update_status_run
      [{ id := "a1", status := "Ny", fields := [("kund", "Acme")] },
       { id := "b2", status := "Klar", fields := [] }]
      "a1" "Arkiv" =
      .ok [{ id := "a1", status := "Arkiv", fields := [("kund", "Acme")] },
           { id := "b2", status := "Klar", fields := [] }] := by
  have h := c7_amended_update_frame
    [{ id := "a1", status := "Ny", fields := [("kund", "Acme")] },
     { id := "b2", status := "Klar", fields := [] }]
    "a1" "Arkiv" (by decide) (by decide)
  exact h.1.trans (by rfl)

/-- C4: on a booking dated "2025-03-10" at "09:00" the derived
local ISO timestamp is "2025-03-10T09:00" and its epoch-milliseconds value
is the one of that local timestamp (1741597200 UTC seconds minus the local
UTC offset, in milliseconds); and on any date/time pair `strptime` cannot
parse, both derived fields are none and the builder still returns a
payload. -/
theorem c4_build_payload_derived :
    (∀ (row : Booking) (tzOff : Int) (nowIso : String),
      row.datum = "2025-03-10" → row.tid = "09:00" →
      (build_booking_payload row tzOff nowIso).start_local_iso =
        some "2025-03-10T09:00" ∧
      (build_booking_payload row tzOff nowIso).start_epoch_ms =
        some ((1741597200 - tzOff) * 1000)) ∧
    (∀ (row : Booking) (tzOff : Int) (nowIso : String),
      strptimeYmdHM (row.datum ++ " " ++ row.tid) = none →
      (build_booking_payload row tzOff nowIso).start_local_iso = none ∧
      (build_booking_payload row tzOff nowIso).start_epoch_ms = none) := by
  constructor
  · intro row tzOff nowIso hd ht
    have hp : strptimeYmdHM (row.datum ++ " " ++ row.tid) = some (2025, 3, 10, 9, 0) := by
      rw [hd, ht]; decide
    have hiso : isoMinutes 2025 3 10 9 0 = "2025-03-10T09:00" := by decide
    have hepo : ∀ z : Int, epochMsLocal 2025 3 10 9 0 z = (1741597200 - z) * 1000 := by
      intro z
      have hdc : daysFromCivil 2025 3 10 = 20157 := by decide
      simp only [epochMsLocal, hdc]
      ring
    simp [build_booking_payload, hp, hiso, hepo]
  · intro row tzOff nowIso hp
    simp [build_booking_payload, hp]

/-- C4 witness: the concrete booking of the spec example at UTC offset
+01:00 (3600 s), and a booking whose date "2025-02-30" does not parse. -/
theorem c4_witness :
    (build_booking_payload
      { id := "b1", skapad := "t", kund := "Acme", uppdrag := "Workshop",
        datum := "2025-03-10", tid := "09:00", plats := "Sthlm",
        ersattning := "", status := "Ny" } 3600 "t2").start_local_iso =
      some "2025-03-10T09:00" ∧
    (build_booking_payload
      { id := "b1", skapad := "t", kund := "Acme", uppdrag := "Workshop",
        datum := "2025-03-10", tid := "09:00", plats := "Sthlm",
        ersattning := "", status := "Ny" } 3600 "t2").start_epoch_ms =
      some 1741593600000 ∧
    (build_booking_payload
      { id := "b2", skapad := "t", kund := "A", uppdrag := "U",
        datum := "2025-02-30", tid := "09:00", plats := "P",
        ersattning := "", status := "Ny" } 0 "t2").start_epoch_ms = none := by
  have h1 := c4_build_payload_derived.1
    { id := "b1", skapad := "t", kund := "Acme", uppdrag := "Workshop",
      datum := "2025-03-10", tid := "09:00", plats := "Sthlm",
      ersattning := "", status := "Ny" } 3600 "t2" rfl rfl
  have h2 := c4_build_payload_derived.2
    { id := "b2", skapad := "t", kund := "A", uppdrag := "U",
      datum := "2025-02-30", tid := "09:00", plats := "P",
      ersattning := "", status := "Ny" } 0 "t2" (by decide)
  refine ⟨h1.1, ?_, h2.2⟩
  rw [h1.2]
  norm_num

/-- C1 counterexample: a valid booking submitted with surrounding
whitespace in a required field is stored trimmed — "\x20Acme\x20" is
accepted (non-blank after trimming) but the stored `kund` value is "Acme",
so the submitted field value does not come back intact. -/
theorem c1_counterexample :
    booking_submit [] " Acme " "Workshop" "2025-06-01" "14:30" "Stockholm" "" "b1" "t1" =
      ([{ id := "b1", skapad := "t1", kund := "Acme", uppdrag := "Workshop",
          datum := "2025-06-01", tid := "14:30", plats := "Stockholm",
          ersattning := "", status := "Ny" }], []) ∧
    "Acme" ≠ " Acme " := by
  constructor
  · decide
  · decide

/-- The stored id of a normalized booking row is the original id, or an
empty cell when the original id was an NA string. -/
theorem notin_normalized_booking_ids (store : List Booking) (bid : String)
    (hna : bid ∉ NA_STRINGS) (hid : bid ∉ store.map Booking.id) :
    bid ∉ (store.map normalize_booking).map Booking.id := by
  intro hmem
  rw [List.map_map] at hmem
  obtain ⟨b, hb, he⟩ := List.mem_map.1 hmem
  have he2 : (naCoerce b.id).getD "" = bid := he
  by_cases h : b.id ∈ NA_STRINGS
  · rw [naCoerce, if_pos h] at he2
    exact hna (he2 ▸ (show ("" : String) ∈ NA_STRINGS by decide))
  · rw [naCoerce, if_neg h] at he2
    exact hid (he2 ▸ List.mem_map_of_mem Booking.id hb)

/-- Contact counterpart of `notin_normalized_booking_ids`. -/
theorem notin_normalized_contact_ids (store : List Contact) (cid : String)
    (hna : cid ∉ NA_STRINGS) (hid : cid ∉ store.map Contact.id) :
    cid ∉ (store.map normalize_contact).map Contact.id := by
  intro hmem
  rw [List.map_map] at hmem
  obtain ⟨c, hc, he⟩ := List.mem_map.1 hmem
  have he2 : (naCoerce c.id).getD "" = cid := he
  by_cases h : c.id ∈ NA_STRINGS
  · rw [naCoerce, if_pos h] at he2
    exact hna (he2 ▸ (show ("" : String) ∈ NA_STRINGS by decide))
  · rw [naCoerce, if_neg h] at he2
    exact hid (he2 ▸ List.mem_map_of_mem Contact.id hc)

/-- Booking-level: one load/save cycle does not change the loaded view. -/
theorem load_normalize_booking (b : Booking) :
    load_booking_row (normalize_booking b) = load_booking_row b := by
  simp [load_booking_row, normalize_booking, save_booking_row,
    naCoerce_getD_empty, naCoerce_fillStatus]

/-- Contact-level: one load/save cycle does not change the loaded view. -/
theorem load_normalize_contact (c : Contact) :
    load_contact_row (normalize_contact c) = load_contact_row c := by
  simp [load_contact_row, normalize_contact, save_contact_row,
    naCoerce_getD_empty, naCoerce_fillStatus]

/-- C1 amended: for inputs whose required fields are non-blank after
trimming and a generated uuid that is fresh and not an NA string,
submission appends exactly one record holding the trimmed submitted text
values; the subsequent load returns the loaded table extended with that
record, whose loaded field values equal the trimmed submitted values
whenever these are not pandas NA strings (an NA string like "N/A" comes
back as a missing cell), with the supplied id, the creation timestamp,
status "Ny", and the id unique in the stored table — for both kinds.
The prior rows are stored NA-normalized but their loaded view is
unchanged. -/
theorem c1_amended_append_load :
    (∀ (store : List Booking) (kund uppdrag datum tid plats ersattning bid now : String),
      kund.strip ≠ "" → uppdrag.strip ≠ "" → plats.strip ≠ "" →
      bid ∉ store.map Booking.id → bid ∉ NA_STRINGS →
      booking_submit store kund uppdrag datum tid plats ersattning bid now =
        (store.map normalize_booking ++
          [mk_booking_row kund uppdrag datum tid plats ersattning bid now], []) ∧
      load_bookings_table (store.map normalize_booking ++
          [mk_booking_row kund uppdrag datum tid plats ersattning bid now]) =
        load_bookings_table store ++
          [load_booking_row (mk_booking_row kund uppdrag datum tid plats ersattning bid now)] ∧
      (load_booking_row (mk_booking_row kund uppdrag datum tid plats ersattning bid now)).id =
        some bid ∧
      (load_booking_row (mk_booking_row kund uppdrag datum tid plats ersattning bid now)).status =
        "Ny" ∧
      (kund.strip ∉ NA_STRINGS →
        (load_booking_row (mk_booking_row kund uppdrag datum tid plats ersattning bid now)).kund =
          some kund.strip) ∧
      (uppdrag.strip ∉ NA_STRINGS →
        (load_booking_row (mk_booking_row kund uppdrag datum tid plats ersattning bid now)).uppdrag =
          some uppdrag.strip) ∧
      (plats.strip ∉ NA_STRINGS →
        (load_booking_row (mk_booking_row kund uppdrag datum tid plats ersattning bid now)).plats =
          some plats.strip) ∧
      (ersattning.strip ∉ NA_STRINGS →
        (load_booking_row (mk_booking_row kund uppdrag datum tid plats ersattning bid now)).ersattning =
          some ersattning.strip) ∧
      (datum ∉ NA_STRINGS →
        (load_booking_row (mk_booking_row kund uppdrag datum tid plats ersattning bid now)).datum =
          some datum) ∧
      (tid ∉ NA_STRINGS →
        (load_booking_row (mk_booking_row kund uppdrag datum tid plats ersattning bid now)).tid =
          some tid) ∧
      (now ∉ NA_STRINGS →
        (load_booking_row (mk_booking_row kund uppdrag datum tid plats ersattning bid now)).skapad =
          some now) ∧
      ((store.map normalize_booking ++
          [mk_booking_row kund uppdrag datum tid plats ersattning bid now]).map
        Booking.id).count bid = 1) ∧
    (∀ (store : List Contact) (namn telefon foretag mail kommentar cid now : String),
      namn.strip ≠ "" → mail.strip ≠ "" →
      cid ∉ store.map Contact.id → cid ∉ NA_STRINGS →
      contact_submit store namn telefon foretag mail kommentar cid now =
        (store.map normalize_contact ++
          [mk_contact_row namn telefon foretag mail kommentar cid now], []) ∧
      load_contacts_table (store.map normalize_contact ++
          [mk_contact_row namn telefon foretag mail kommentar cid now]) =
        load_contacts_table store ++
          [load_contact_row (mk_contact_row namn telefon foretag mail kommentar cid now)] ∧
      (load_contact_row (mk_contact_row namn telefon foretag mail kommentar cid now)).id =
        some cid ∧
      (load_contact_row (mk_contact_row namn telefon foretag mail kommentar cid now)).status =
        "Ny" ∧
      (namn.strip ∉ NA_STRINGS →
        (load_contact_row (mk_contact_row namn telefon foretag mail kommentar cid now)).namn =
          some namn.strip) ∧
      (mail.strip ∉ NA_STRINGS →
        (load_contact_row (mk_contact_row namn telefon foretag mail kommentar cid now)).mail =
          some mail.strip) ∧
      (telefon.strip ∉ NA_STRINGS →
        (load_contact_row (mk_contact_row namn telefon foretag mail kommentar cid now)).telefon =
          some telefon.strip) ∧
      (foretag.strip ∉ NA_STRINGS →
        (load_contact_row (mk_contact_row namn telefon foretag mail kommentar cid now)).foretag =
          some foretag.strip) ∧
      (kommentar.strip ∉ NA_STRINGS →
        (load_contact_row (mk_contact_row namn telefon foretag mail kommentar cid now)).kommentar =
          some kommentar.strip) ∧
      (now ∉ NA_STRINGS →
        (load_contact_row (mk_contact_row namn telefon foretag mail kommentar cid now)).skapad =
          some now) ∧
      ((store.map normalize_contact ++
          [mk_contact_row namn telefon foretag mail kommentar cid now]).map
        Contact.id).count cid = 1) := by
  constructor
  · intro store kund uppdrag datum tid plats ersattning bid now h1 h2 h3 hid hna
    refine ⟨?_, ?_, ?_, rfl, ?_, ?_, ?_, ?_, ?_, ?_, ?_, ?_⟩
    · simp [booking_submit, validate_booking, h1, h2, h3, append_booking,
        load_bookings_table, List.map_map, normalize_booking, mk_booking_row,
        Function.comp]
    · show (store.map normalize_booking ++
          [mk_booking_row kund uppdrag datum tid plats ersattning bid now]).map
            load_booking_row =
        store.map load_booking_row ++
          [load_booking_row (mk_booking_row kund uppdrag datum tid plats ersattning bid now)]
      rw [List.map_append, List.map_map]
      congr 1
      exact List.map_congr_left (fun b _ => load_normalize_booking b)
    · simp [load_booking_row, mk_booking_row, naCoerce, hna]
    · intro hn; simp [load_booking_row, mk_booking_row, naCoerce, hn]
    · intro hn; simp [load_booking_row, mk_booking_row, naCoerce, hn]
    · intro hn; simp [load_booking_row, mk_booking_row, naCoerce, hn]
    · intro hn; simp [load_booking_row, mk_booking_row, naCoerce, hn]
    · intro hn; simp [load_booking_row, mk_booking_row, naCoerce, hn]
    · intro hn; simp [load_booking_row, mk_booking_row, naCoerce, hn]
    · intro hn; simp [load_booking_row, mk_booking_row, naCoerce, hn]
    · rw [List.map_append, List.count_append,
        List.count_eq_zero_of_not_mem (notin_normalized_booking_ids store bid hna hid)]
      simp [mk_booking_row]
  · intro store namn telefon foretag mail kommentar cid now h1 h2 hid hna
    refine ⟨?_, ?_, ?_, rfl, ?_, ?_, ?_, ?_, ?_, ?_, ?_⟩
    · simp [contact_submit, validate_contact, h1, h2, append_contact,
        load_contacts_table, List.map_map, normalize_contact, mk_contact_row,
        Function.comp]
    · show (store.map normalize_contact ++
          [mk_contact_row namn telefon foretag mail kommentar cid now]).map
            load_contact_row =
        store.map load_contact_row ++
          [load_contact_row (mk_contact_row namn telefon foretag mail kommentar cid now)]
      rw [List.map_append, List.map_map]
      congr 1
      exact List.map_congr_left (fun c _ => load_normalize_contact c)
    · simp [load_contact_row, mk_contact_row, naCoerce, hna]
    · intro hn; simp [load_contact_row, mk_contact_row, naCoerce, hn]
    · intro hn; simp [load_contact_row, mk_contact_row, naCoerce, hn]
    · intro hn; simp [load_contact_row, mk_contact_row, naCoerce, hn]
    · intro hn; simp [load_contact_row, mk_contact_row, naCoerce, hn]
    · intro hn; simp [load_contact_row, mk_contact_row, naCoerce, hn]
    · intro hn; simp [load_contact_row, mk_contact_row, naCoerce, hn]
    · rw [List.map_append, List.count_append,
        List.count_eq_zero_of_not_mem (notin_normalized_contact_ids store cid hna hid)]
      simp [mk_contact_row]

/-- C1 witness: a fully valid booking and contact each append one record
with the submitted values, a fresh non-NA id and status "Ny". -/
theorem c1_witness :
    booking_submit [] "Acme" "Workshop" "2025-06-01" "14:30" "Stockholm"
      "4500 SEK" "b1" "2025-06-01T10:00:00" =
      ([{ id := "b1", skapad := "2025-06-01T10:00:00", kund := "Acme",
          uppdrag := "Workshop", datum := "2025-06-01", tid := "14:30",
          plats := "Stockholm", ersattning := "4500 SEK", status := "Ny" }], []) ∧
    contact_submit [] "Eva Ek" "070" "AB" "eva@ab.se" "Hej" "c1" "t1" =
      ([{ id := "c1", skapad := "t1", namn := "Eva Ek", telefon := "070",
          foretag := "AB", mail := "eva@ab.se", kommentar := "Hej",
          status := "Ny" }], []) := by
  have hb := (c1_amended_append_load.1 [] "Acme" "Workshop" "2025-06-01" "14:30"
    "Stockholm" "4500 SEK" "b1" "2025-06-01T10:00:00"
    (by decide) (by decide) (by decide) (by decide) (by decide)).1
  have hc := (c1_amended_append_load.2 [] "Eva Ek" "070" "AB" "eva@ab.se" "Hej"
    "c1" "t1" (by decide) (by decide) (by decide) (by decide)).1
  exact ⟨hb.trans (by decide), hc.trans (by decide)⟩


/-- Counting in a filtered list: every occurrence of `a` survives when the
predicate holds at `a`, none otherwise. -/
theorem count_filter_eq {α : Type} [DecidableEq α] (p : α → Bool) (a : α) (l : List α) :
    (l.filter p).count a = if p a then l.count a else 0 := by
  by_cases h : p a = true
  · rw [if_pos h, List.count_filter h]
  · rw [if_neg h]
    refine List.count_eq_zero.2 (fun hmem => ?_)
    exact h (List.mem_filter.1 hmem).2

/-- C9 counterexample: a loaded record with the unrecognized status "Foo"
appears in none of the four buckets — the union of the buckets is empty
while the loaded items are not, so the projection loses the record. -/
theorem c9_counterexample :
    ((kanban_buckets
        [{ id := "b1", skapad := "t", kund := "A", uppdrag := "U", datum := "d",
           tid := "09:00", plats := "P", ersattning := "", status := "Foo" }]
        []).map Prod.snd).flatten = [] ∧
    all_items
      [{ id := "b1", skapad := "t", kund := "A", uppdrag := "U", datum := "d",
         tid := "09:00", plats := "P", ersattning := "", status := "Foo" }]
      [] ≠ [] := by decide

/-- C9 amended: a loaded record lands in the bucket of a recognized status
exactly when that status is its own (hence in exactly one bucket when its
status is recognized, in none otherwise), and the concatenation of the
four buckets is a permutation of the loaded records whose status is one of
the four — records with unrecognized statuses are dropped. -/
theorem c9_amended_buckets (bs : List Booking) (cs : List Contact) :
    (∀ card ∈ all_items bs cs, ∀ s ∈ KANBAN_STATI,
      (card ∈ kanban_bucket bs cs s ↔ card.status = s)) ∧
    ((kanban_buckets bs cs).map Prod.snd).flatten.Perm
      ((all_items bs cs).filter (fun c => decide (c.status ∈ KANBAN_STATI))) := by
  constructor
  · intro card hc s _
    simp [kanban_bucket, List.mem_filter, hc]
  · rw [List.perm_iff_count]
    intro a
    rw [List.count_flatten]
    have hb : ∀ s, (kanban_bucket bs cs s).count a =
        if a.status = s then (all_items bs cs).count a else 0 := by
      intro s
      have := count_filter_eq (fun c => decide (c.status = s)) a (all_items bs cs)
      simpa [kanban_bucket] using this
    have hr : ((all_items bs cs).filter
        (fun c => decide (c.status ∈ KANBAN_STATI))).count a =
        if a.status ∈ KANBAN_STATI then (all_items bs cs).count a else 0 := by
      have := count_filter_eq (fun c => decide (c.status ∈ KANBAN_STATI)) a
        (all_items bs cs)
      simpa using this
    rw [hr]
    simp only [kanban_buckets, KANBAN_STATI, List.map_cons, List.map_nil,
      List.sum_cons, List.sum_nil, hb]
    by_cases h1 : a.status = "Ny" <;> by_cases h2 : a.status = "Pågående" <;>
      by_cases h3 : a.status = "Klar" <;> by_cases h4 : a.status = "Arkiv" <;>
      simp_all

/-- C9 witness: a booking with status "Ny" is in the "Ny" bucket, and on a
one-booking, one-contact board the bucket union is a permutation of the
recognized items. -/
theorem c9_witness :
    (mkBookingCard
        { id := "b1", skapad := "t", kund := "A", uppdrag := "U", datum := "d",
          tid := "09:00", plats := "P", ersattning := "", status := "Ny" } ∈
      kanban_bucket
        [{ id := "b1", skapad := "t", kund := "A", uppdrag := "U", datum := "d",
           tid := "09:00", plats := "P", ersattning := "", status := "Ny" }]
        [{ id := "c1", skapad := "t", namn := "N", telefon := "", foretag := "F",
           mail := "m", kommentar := "", status := "Klar" }] "Ny") ∧
    ((kanban_buckets
        [{ id := "b1", skapad := "t", kund := "A", uppdrag := "U", datum := "d",
           tid := "09:00", plats := "P", ersattning := "", status := "Ny" }]
        [{ id := "c1", skapad := "t", namn := "N", telefon := "", foretag := "F",
           mail := "m", kommentar := "", status := "Klar" }]).map Prod.snd).flatten.Perm
      ((all_items
        [{ id := "b1", skapad := "t", kund := "A", uppdrag := "U", datum := "d",
           tid := "09:00", plats := "P", ersattning := "", status := "Ny" }]
        [{ id := "c1", skapad := "t", namn := "N", telefon := "", foretag := "F",
           mail := "m", kommentar := "", status := "Klar" }]).filter
        (fun c => decide (c.status ∈ KANBAN_STATI))) := by
  have h := c9_amended_buckets
    [{ id := "b1", skapad := "t", kund := "A", uppdrag := "U", datum := "d",
       tid := "09:00", plats := "P", ersattning := "", status := "Ny" }]
    [{ id := "c1", skapad := "t", namn := "N", telefon := "", foretag := "F",
       mail := "m", kommentar := "", status := "Klar" }]
  refine ⟨(h.1 _ (by decide) "Ny" (by decide)).2 rfl, h.2⟩

/-! ### Roundtrip lemmas for the CSV layer -/

/-- Step equation: an ordinary character outside quotes is accumulated. -/
theorem csvScan_false_other (c : Char) (rest field : List Char) (row : List String)
    (h1 : c ≠ '"') (h2 : c ≠ ',') (h3 : c ≠ '\n') :
    csvScan (c :: rest) false field row = csvScan rest false (field ++ [c]) row := by
  rw [csvScan.eq_def]
  split
  all_goals simp_all

/-- Step equation: an ordinary character inside quotes is accumulated. -/
theorem csvScan_true_other (c : Char) (rest field : List Char) (row : List String)
    (h1 : c ≠ '"') :
    csvScan (c :: rest) true field row = csvScan rest true (field ++ [c]) row := by
  rw [csvScan.eq_def]
  split
  all_goals simp_all

/-- Step equation: a quote inside quotes not followed by another quote
closes the quoted section. -/
theorem csvScan_true_close (c : Char) (rest field : List Char) (row : List String)
    (h1 : c ≠ '"') :
    csvScan ('"' :: c :: rest) true field row = csvScan (c :: rest) false field row := by
  rw [csvScan.eq_def]
  split
  all_goals try simp_all
  rename_i hne heq
  exact absurd heq.1.symm hne

/-- Step equation: a final quote closes the quoted section at end of input. -/
theorem csvScan_true_close_nil (field : List Char) (row : List String) :
    csvScan ['"'] true field row = csvScan [] false field row := rfl

/-- Step equation: a quote outside quotes opens a quoted section. -/
theorem csvScan_false_quote (rest field : List Char) (row : List String) :
    csvScan ('"' :: rest) false field row = csvScan rest true field row := by
  rw [csvScan.eq_def]
  split
  all_goals try simp_all
  all_goals exfalso
  all_goals rename_i h1 h2 h3 heq
  all_goals exact h1 heq.1.symm

/-- Step equation: a comma outside quotes finishes the current field. -/
theorem csvScan_false_comma (rest field : List Char) (row : List String) :
    csvScan (',' :: rest) false field row =
      csvScan rest false [] (row ++ [⟨field⟩]) := by
  rw [csvScan.eq_def]
  split
  all_goals try simp_all
  all_goals exfalso
  all_goals rename_i h1 h2 h3 heq
  all_goals exact h2 heq.1.symm

/-- Step equation: a newline outside quotes finishes the current row. -/
theorem csvScan_false_newline (rest field : List Char) (row : List String) :
    csvScan ('\n' :: rest) false field row =
      (row ++ [⟨field⟩]) :: csvScan rest false [] [] := by
  rw [csvScan.eq_def]
  split
  all_goals try simp_all
  all_goals exfalso
  all_goals rename_i h1 h2 h3 heq
  all_goals exact h3 heq.1.symm

/-- Unfolding `escQuotes` on a non-quote head. -/
theorem escQuotes_cons_ne (c : Char) (l : List Char) (hc : c ≠ '"') :
    escQuotes (c :: l) = c :: escQuotes l := by
  rw [escQuotes.eq_def]
  split
  all_goals simp_all

/-- Scanning a run of non-special characters outside quotes accumulates
them into the current field. -/
theorem scan_plain (l : List Char) (hl : ∀ c ∈ l, csvSpecialChar c = false) :
    ∀ (rest field : List Char) (row : List String),
      csvScan (l ++ rest) false field row = csvScan rest false (field ++ l) row := by
  induction l with
  | nil => intro rest field row; simp
  | cons c l' ih =>
      intro rest field row
      have hc := hl c (List.mem_cons_self c l')
      simp only [csvSpecialChar, decide_eq_false_iff_not, not_or] at hc
      obtain ⟨h2, h1, h3, _⟩ := hc
      rw [List.cons_append, csvScan_false_other c (l' ++ rest) field row h1 h2 h3,
        ih (fun x hx => hl x (List.mem_cons_of_mem c hx)) rest (field ++ [c]) row]
      simp

/-- Scanning the quote-escaped body of a field inside quotes accumulates
the original characters. -/
theorem scan_quoted (l : List Char) :
    ∀ (rest field : List Char) (row : List String),
      csvScan (escQuotes l ++ rest) true field row = csvScan rest true (field ++ l) row := by
  induction l with
  | nil => intro rest field row; simp [escQuotes]
  | cons c l' ih =>
      intro rest field row
      by_cases hc : c = '"'
      · subst hc
        show csvScan ('"' :: '"' :: (escQuotes l' ++ rest)) true field row = _
        rw [show csvScan ('"' :: '"' :: (escQuotes l' ++ rest)) true field row =
            csvScan (escQuotes l' ++ rest) true (field ++ ['"']) row from rfl,
          ih rest (field ++ ['"']) row]
        simp
      · rw [escQuotes_cons_ne c l' hc, List.cons_append,
          csvScan_true_other c (escQuotes l' ++ rest) field row hc,
          ih rest (field ++ [c]) row]
        simp

/-- Scanning one escaped field (from an empty current field) yields that
characters of that field, provided the remainder does not begin with a quote. -/
theorem scan_field (f : List Char) (rest : List Char) (row : List String)
    (hrest : rest.head? ≠ some '"') :
    csvScan (escapeField f ++ rest) false [] row = csvScan rest false f row := by
  unfold escapeField
  by_cases hq : needsQuote f = true
  · rw [if_pos hq]
    show csvScan ('"' :: (escQuotes f ++ ['"']) ++ rest) false [] row = _
    rw [show ('"' :: (escQuotes f ++ ['"']) ++ rest) =
        '"' :: (escQuotes f ++ ('"' :: rest)) by simp]
    rw [csvScan_false_quote (escQuotes f ++ ('"' :: rest)) [] row]
    rw [scan_quoted f ('"' :: rest) [] row]
    cases rest with
    | nil => exact csvScan_true_close_nil f row
    | cons c' r' =>
        have hc' : c' ≠ '"' := by
          intro he
          exact hrest (by simp [he])
        exact csvScan_true_close c' r' f row hc'
  · rw [if_neg hq]
    have hplain : ∀ c ∈ f, csvSpecialChar c = false := by
      intro c hcf
      have h2 := List.any_eq_false.1 (by simpa [needsQuote] using hq) c hcf
      simpa using h2
    have := scan_plain f hplain rest [] row
    simpa using this

/-- Scanning one written line (at least one field) yields exactly its
fields as a completed row, and continues on the remaining input. -/
theorem scan_row_cons (fs' : List (List Char)) :
    ∀ (f : List Char) (rest : List Char) (row : List String),
      csvScan (writeRowChars (f :: fs') ++ '\n' :: rest) false [] row =
        (row ++ (f :: fs').map (fun g => (⟨g⟩ : String))) :: csvScan rest false [] [] := by
  induction fs' with
  | nil =>
      intro f rest row
      rw [show writeRowChars [f] = escapeField f from rfl,
        scan_field f ('\n' :: rest) row (by simp),
        csvScan_false_newline rest f row]
      simp
  | cons f2 fs'' ih =>
      intro f rest row
      rw [show writeRowChars (f :: f2 :: fs'') =
          escapeField f ++ ',' :: writeRowChars (f2 :: fs'') from rfl]
      rw [show (escapeField f ++ ',' :: writeRowChars (f2 :: fs'')) ++ '\n' :: rest =
          escapeField f ++ ',' :: (writeRowChars (f2 :: fs'') ++ '\n' :: rest) by simp]
      rw [scan_field f (',' :: (writeRowChars (f2 :: fs'') ++ '\n' :: rest)) row (by simp),
        csvScan_false_comma (writeRowChars (f2 :: fs'') ++ '\n' :: rest) f row,
        ih f2 rest (row ++ [(⟨f⟩ : String)])]
      simp

/-- Scanning a whole written file (every row nonempty) recovers all rows. -/
theorem scan_csv : ∀ (rows : List (List (List Char))), (∀ r ∈ rows, r ≠ []) →
    csvScan (writeCsvChars rows) false [] [] =
      rows.map (fun r => r.map (fun f => (⟨f⟩ : String))) := by
  intro rows
  induction rows with
  | nil => intro _; rfl
  | cons r rs ih =>
      intro h
      obtain ⟨f, fs', rfl⟩ := List.exists_cons_of_ne_nil (h r (List.mem_cons_self r rs))
      rw [show writeCsvChars ((f :: fs') :: rs) =
          writeRowChars (f :: fs') ++ '\n' :: writeCsvChars rs from rfl,
        scan_row_cons fs' f (writeCsvChars rs) [],
        ih (fun x hx => h x (List.mem_cons_of_mem _ hx))]
      simp

/-- Writing any table whose rows are all nonempty and reading it back is
the identity: the full CSV round trip at the text level. -/
theorem parse_writeCsv (rows : List (List String)) (h : ∀ r ∈ rows, r ≠ []) :
    parseCsv (writeCsv rows) = rows := by
  unfold parseCsv writeCsv
  rw [show (String.mk (writeCsvChars (rows.map (fun r => r.map String.data)))).data =
      writeCsvChars (rows.map (fun r => r.map String.data)) from rfl]
  rw [scan_csv (rows.map (fun r => r.map String.data)) ?hne]
  case hne =>
    intro r hr
    obtain ⟨r0, hr0, rfl⟩ := List.mem_map.1 hr
    have := h r0 hr0
    simpa using this
  rw [List.map_map]
  refine List.map_id'' (fun r => ?_) rows
  show List.map (fun f => ({ data := f } : String)) (List.map String.data r) = r
  rw [List.map_map]
  exact List.map_id'' (fun s => rfl) r

/-- Selecting the columns 0..n-1 of an n-cell row reproduces the row. -/
theorem sel_range (r : List String) :
    (List.range r.length).map (fun i => (r.get? i).getD "") = r := by
  induction r with
  | nil => rfl
  | cons a t ih =>
      rw [List.length_cons, List.range_succ_eq_map]
      simp only [List.map_cons, List.get?_cons_zero, Option.getD_some, List.map_map]
      have hcomp : ((fun i => (List.get? (a :: t) i).getD "") ∘ Nat.succ) =
          (fun i => (List.get? t i).getD "") := by
        funext i
        simp [List.get?_cons_succ]
      rw [hcomp, ih]

/-- Selecting the columns 0..n-1 of an n-cell row of loaded (possibly
NaN) cells writes each cell back, NaN as empty. -/
theorem sel_range_opt (r : List (Option String)) :
    (List.range r.length).map (fun i => ((r.get? i).getD none).getD "") =
      r.map (fun o => o.getD "") := by
  induction r with
  | nil => rfl
  | cons a t ih =>
      rw [List.length_cons, List.range_succ_eq_map]
      simp only [List.map_cons, List.get?_cons_zero, Option.getD_some, List.map_map]
      have hcomp : ((fun i => ((List.get? (a :: t) i).getD none).getD "") ∘ Nat.succ) =
          (fun i => ((List.get? t i).getD none).getD "") := by
        funext i
        simp [List.get?_cons_succ]
      rw [hcomp, ih]

/-- A cell that one load/save cycle has already normalized is stable
under the import save (`to_csv` of the `read_csv` value). -/
theorem normalizeCell_stable (c : String) :
    (naCoerce ((naCoerce c).getD "")).getD "" = (naCoerce c).getD "" := by
  rw [naCoerce_getD_empty]

/-- A status cell the loader has filled is stable under the import save. -/
theorem statusCell_stable (s : String) :
    (naCoerce ((naCoerce s).getD "Ny")).getD "" = (naCoerce s).getD "Ny" := by
  unfold naCoerce
  by_cases h : s ∈ NA_STRINGS
  · rw [if_pos h]
    show (if ("Ny" : String) ∈ NA_STRINGS then none else some "Ny").getD "" = "Ny"
    rw [if_neg (show ("Ny" : String) ∉ NA_STRINGS by decide)]
    rfl
  · rw [if_neg h]
    show (if s ∈ NA_STRINGS then none else some s).getD "" = s
    rw [if_neg h]
    rfl

/-- Importing a file written with an already-canonical header (lower-case,
duplicate-free, self-contained) whose cells are stable under NA
normalization recovers the header and the rows as written. -/
theorem importTable_canonical (cols : List String) (rows : List (List String))
    (hcols : cols ≠ [])
    (hrows : ∀ r ∈ rows, r ≠ [])
    (hmangle : mangleHeader cols = cols)
    (hlow : cols.map lowerStr = cols)
    (hall : cols.all (fun c => cols.contains c) = true)
    (hidx : selectIdxs cols cols = List.range cols.length)
    (hlen : ∀ r ∈ rows, r.length = cols.length)
    (hstable : ∀ r ∈ rows, ∀ c ∈ r, (naCoerce c).getD "" = c) :
    importTable cols (writeCsv (cols :: rows)) = .ok (cols, rows) := by
  have hp := parse_writeCsv (cols :: rows) (by
    intro r hr
    rcases List.mem_cons.1 hr with h | h
    · subst h; exact hcols
    · exact hrows r h)
  unfold importTable read_csv_model
  rw [hp]
  simp only [hmangle, hlow, hall, if_true]
  refine congrArg Except.ok (Prod.ext ?_ ?_)
  · show (selectIdxs cols cols).map _ = cols
    rw [hidx]
    exact sel_range cols
  · show (rows.map (fun r => r.map naCoerce)).map _ = rows
    rw [List.map_map]
    refine (List.map_congr_left (fun r hr => ?_)).trans (List.map_id rows)
    show (selectIdxs cols cols).map
        (fun i => (((r.map naCoerce).get? i).getD none).getD "") = id r
    have hl : cols.length = (r.map naCoerce).length := by
      rw [List.length_map, hlen r hr]
    rw [hidx, hl, sel_range_opt (r.map naCoerce), List.map_map]
    exact (List.map_congr_left (fun c hc => hstable r hr c hc)).trans (List.map_id r)

/-- C8 counterexample: a stored cell holding the text "N/A" (a pandas
default NA string) is exported as an empty cell, so exporting and fully
reimporting does NOT reproduce the stored records field for field. -/
theorem c8_counterexample :
    import_bookings (export_bookings
      [{ id := "1", skapad := "t", kund := "A", uppdrag := "u", datum := "d",
         tid := "09:00", plats := "p", ersattning := "N/A", status := "Ny" }]) =
      .ok (bookingCols, [["1", "t", "A", "u", "d", "09:00", "p", "", "Ny"]]) ∧
    ("" : String) ≠ "N/A" := ⟨rfl, by decide⟩

/-- Every cell of an NA-normalized booking row is stable under the save
step of the import. -/
theorem normalize_booking_cells_stable (b : Booking) :
    ∀ c ∈ (normalize_booking b).toFields, (naCoerce c).getD "" = c := by
  intro c hc
  simp only [Booking.toFields, normalize_booking, save_booking_row, load_booking_row,
    List.mem_cons, List.not_mem_nil, or_false] at hc
  rcases hc with h | h | h | h | h | h | h | h | h <;> rw [h] <;>
    first
      | exact normalizeCell_stable _
      | exact statusCell_stable _

/-- Every cell of an NA-normalized contact row is stable under the save
step of the import. -/
theorem normalize_contact_cells_stable (c : Contact) :
    ∀ x ∈ (normalize_contact c).toFields, (naCoerce x).getD "" = x := by
  intro x hx
  simp only [Contact.toFields, normalize_contact, save_contact_row, load_contact_row,
    List.mem_cons, List.not_mem_nil, or_false] at hx
  rcases hx with h | h | h | h | h | h | h | h <;> rw [h] <;>
    first
      | exact normalizeCell_stable _
      | exact statusCell_stable _

/-- C8 amended: export (which serializes the LOADED table, i.e. the
NA-normalized cells) followed by a full reimport succeeds and saves the
canonical header with exactly the NA-normalized records, in order; the
loaded view of the table is unchanged by the cycle; and the round trip is
byte-exact precisely on already-normalized tables (no cell a nonempty NA
string, no NA status) — bookings from the source, contacts
spec-modelled. -/
theorem c8_amended_roundtrip (btbl : List Booking) (ctbl : List Contact) :
    (import_bookings (export_bookings btbl) =
      .ok (bookingCols, btbl.map (fun b => (normalize_booking b).toFields))) ∧
    (load_bookings_table (btbl.map normalize_booking) = load_bookings_table btbl) ∧
    ((∀ b ∈ btbl, normalize_booking b = b) →
      import_bookings (export_bookings btbl) =
        .ok (bookingCols, btbl.map Booking.toFields)) ∧
    (import_contacts (export_contacts ctbl) =
      .ok (contactCols, ctbl.map (fun c => (normalize_contact c).toFields))) ∧
    (load_contacts_table (ctbl.map normalize_contact) = load_contacts_table ctbl) ∧
    ((∀ c ∈ ctbl, normalize_contact c = c) →
      import_contacts (export_contacts ctbl) =
        .ok (contactCols, ctbl.map Contact.toFields)) := by
  have hbmain : import_bookings (export_bookings btbl) =
      .ok (bookingCols, btbl.map (fun b => (normalize_booking b).toFields)) := by
    show importTable bookingCols
      (writeCsv (bookingCols :: btbl.map (fun b => (normalize_booking b).toFields))) = _
    refine importTable_canonical bookingCols
      (btbl.map (fun b => (normalize_booking b).toFields)) (by decide)
      (fun r hr => ?_) (by decide) (by decide) (by decide) (by decide)
      (fun r hr => ?_) (fun r hr => ?_)
    · obtain ⟨b, -, rfl⟩ := List.mem_map.1 hr
      simp [Booking.toFields]
    · obtain ⟨b, -, rfl⟩ := List.mem_map.1 hr
      rfl
    · obtain ⟨b, -, rfl⟩ := List.mem_map.1 hr
      exact normalize_booking_cells_stable b
  have hcmain : import_contacts (export_contacts ctbl) =
      .ok (contactCols, ctbl.map (fun c => (normalize_contact c).toFields)) := by
    show importTable contactCols
      (writeCsv (contactCols :: ctbl.map (fun c => (normalize_contact c).toFields))) = _
    refine importTable_canonical contactCols
      (ctbl.map (fun c => (normalize_contact c).toFields)) (by decide)
      (fun r hr => ?_) (by decide) (by decide) (by decide) (by decide)
      (fun r hr => ?_) (fun r hr => ?_)
    · obtain ⟨c, -, rfl⟩ := List.mem_map.1 hr
      simp [Contact.toFields]
    · obtain ⟨c, -, rfl⟩ := List.mem_map.1 hr
      rfl
    · obtain ⟨c, -, rfl⟩ := List.mem_map.1 hr
      exact normalize_contact_cells_stable c
  refine ⟨hbmain, ?_, ?_, hcmain, ?_, ?_⟩
  · show (btbl.map normalize_booking).map load_booking_row = _
    rw [List.map_map]
    exact List.map_congr_left (fun b _ => load_normalize_booking b)
  · intro hn
    have : btbl.map (fun b => (normalize_booking b).toFields) = btbl.map Booking.toFields :=
      List.map_congr_left (fun b hb => by rw [hn b hb])
    rw [← this]
    exact hbmain
  · show (ctbl.map normalize_contact).map load_contact_row = _
    rw [List.map_map]
    exact List.map_congr_left (fun c _ => load_normalize_contact c)
  · intro hn
    have : ctbl.map (fun c => (normalize_contact c).toFields) = ctbl.map Contact.toFields :=
      List.map_congr_left (fun c hc => by rw [hn c hc])
    rw [← this]
    exact hcmain

/-- C8 witness: a table with no NA-string cells (empty optional field,
comma and quote in values) round-trips byte-exactly. -/
theorem c8_witness :
    import_bookings (export_bookings
      [{ id := "1", skapad := "t", kund := "A, B", uppdrag := "u", datum := "d",
         tid := "09:00", plats := "p\"q", ersattning := "", status := "Ny" }]) =
      .ok (bookingCols, [["1", "t", "A, B", "u", "d", "09:00", "p\"q", "", "Ny"]]) := by
  have h := (c8_amended_roundtrip
    [{ id := "1", skapad := "t", kund := "A, B", uppdrag := "u", datum := "d",
       tid := "09:00", plats := "p\"q", ersattning := "", status := "Ny" }]
    []).2.2.1 (by decide)
  exact h.trans (by rfl)

